import Mathlib

/-!
Shallow embedding of `clock.py`, a generator of a 44-second MP4 video of a
binary-coded-decimal clock.  Python floats are modelled as exact rationals
(`ℚ`), except for the sinusoidal pulse effect which is modelled over the
reals; Python's truncating `int()` float conversion, the float `%` operator,
floor division `//` and the `assert` statement are modelled explicitly.
Global configuration constants are kept under their source names; where a
claim quantifies over configurations (enable flags, duration, rate), the
corresponding constant is lifted into an explicit parameter of the embedded
function, whose default run instantiates it with the source constant.
-/

set_option autoImplicit false

namespace Clock

/-- Python `int()` applied to a rational: truncation toward zero. -/
def py_int (q : ℚ) : ℤ := if 0 ≤ q then ⌊q⌋ else ⌈q⌉

/-- Python float `%` (for a nonzero right operand): `a % b = a - b * ⌊a / b⌋`,
whose result lies in `[0, b)` when `b > 0`. -/
def fmod (a b : ℚ) : ℚ := a - b * ⌊a / b⌋

/-! Configuration constants of `clock.py`. -/

def DURATION_SEC : ℕ := 44

def FPS : ℕ := 30

def WIDTH : ℤ := 1920

def HEIGHT : ℤ := 1080

def LED_ON : ℤ × ℤ × ℤ := (40, 200, 255)

def LED_OFF : ℤ × ℤ × ℤ := (60, 70, 80)

def GRID_COLS : ℕ := 4

def GRID_ROWS : ℕ := 4

def COLUMN_SPACING : ℤ := 280

def ROW_SPACING : ℤ := 160

/-- Source `GRID_CENTER = (WIDTH // 2, HEIGHT // 2 - 40)`; Python `//` is `Int.fdiv`. -/
def GRID_CENTER : ℤ × ℤ := (WIDTH.fdiv 2, HEIGHT.fdiv 2 - 40)

def PULSE_ENABLED : Bool := true

def PULSE_FREQ : ℝ := 0.25

def PULSE_DEPTH : ℝ := 0.25

def COLON_ENABLED : Bool := true

def COLON_BLINK_FREQ : ℚ := 1.0

/-! Binary clock logic. -/

/-- Source `bcd_bits` body: `[(d >> shift) & 1 for shift in (3, 2, 1, 0)]`. -/
def bcd_bits (d : ℕ) : List ℕ := [3, 2, 1, 0].map fun s => (d >>> s) &&& 1

/-- Source `bcd_bits` together with its `assert 0 <= d <= 9`: an out-of-range digit
raises, modelled as `none`. -/
def bcd_bits_checked (d : ℤ) : Option (List ℕ) :=
  if 0 ≤ d ∧ d ≤ 9 then some (bcd_bits d.toNat) else none

/-- Source `digits_for_time`: the digits H tens, H ones, M tens, M ones via `//` and `%`. -/
def digits_for_time (h m : ℕ) : List ℕ := [h / 10, h % 10, m / 10, m % 10]

/-- Source `get_time_for_elapsed`: `(4, 43)` for `t < 22.0`, else `(4, 44)`. -/
def get_time_for_elapsed (t : ℚ) : ℕ × ℕ := if t < 22 then (4, 43) else (4, 44)

/-- The four digits the clock shows at elapsed time `t` (as computed at the
start of `render_frame`). -/
def rendered_digits (t : ℚ) : List ℕ :=
  digits_for_time (get_time_for_elapsed t).1 (get_time_for_elapsed t).2

/-! Rendering helpers. -/

/-- Source `compute_grid_positions`: the 4×4 table of `(x, y)` pixel positions
centred around `GRID_CENTER`. -/
def compute_grid_positions : List (List (ℤ × ℤ)) :=
  let cx := GRID_CENTER.1
  let cy := GRID_CENTER.2
  let total_w := COLUMN_SPACING * ((GRID_COLS : ℤ) - 1)
  let total_h := ROW_SPACING * ((GRID_ROWS : ℤ) - 1)
  let left := cx - total_w.fdiv 2
  let top := cy - total_h.fdiv 2
  (List.range GRID_COLS).map fun col =>
    (List.range GRID_ROWS).map fun row =>
      (left + (col : ℤ) * COLUMN_SPACING, top + (row : ℤ) * ROW_SPACING)

/-- Entry `(col, row)` of the grid-position table. -/
def grid_pos (c r : ℕ) : ℤ × ℤ := (compute_grid_positions.getD c []).getD r (0, 0)

/-- Source `pulse_factor`, with the `PULSE_ENABLED` flag and the two pulse constants
lifted to parameters: `1.0` when disabled, else
`1.0 + depth * sin(2 * pi * freq * t)`. -/
noncomputable def pulse_factor (enabled : Bool) (freq depth : ℝ) (t : ℝ) : ℝ :=
  if enabled = false then 1.0
  else 1.0 + depth * Real.sin (2 * Real.pi * freq * t)

/-- Source `modulate_brightness`: `k` is clamped to `[0, 2]`, then each channel is
`int(max(0, min(255, ch * k)))`. -/
def modulate_brightness (color : ℤ × ℤ × ℤ) (k : ℚ) : ℤ × ℤ × ℤ :=
  let kc := max 0 (min 2 k)
  (py_int (max 0 (min 255 ((color.1 : ℚ) * kc))),
   py_int (max 0 (min 255 ((color.2.1 : ℚ) * kc))),
   py_int (max 0 (min 255 ((color.2.2 : ℚ) * kc))))

/-- Source `colon_visible`, with the `COLON_ENABLED` flag and the blink frequency
lifted to parameters: `False` when disabled, else
`(t % cycle_time) < (cycle_time / 2)` with `cycle_time = 1.0 / freq`. -/
def colon_visible (enabled : Bool) (freq : ℚ) (t : ℚ) : Bool :=
  if enabled = false then false
  else
    let cycle_time := 1 / freq
    decide (fmod t cycle_time < cycle_time / 2)

/-! Code overlay scrolling (the arithmetic prefix of `draw_code_overlay`). -/

/-- Source `lines_per_screen = 25`: the fixed number of visible overlay lines. -/
def lines_per_screen : ℕ := 25

/-- Source `total_scrollable_lines = max(1, len(source_lines) - lines_per_screen + 1)`. -/
def total_scrollable_lines (total_lines : ℕ) : ℤ :=
  max 1 ((total_lines : ℤ) - (lines_per_screen : ℤ) + 1)

/-- Source `start_line = int(t * lines_per_second) % total_scrollable_lines` with
`lines_per_second = total_scrollable_lines / DURATION_SEC`; Python `int()` is
`py_int` and integer `%` with a positive modulus is `Int.emod`. -/
def start_line (total_lines : ℕ) (t : ℚ) : ℤ :=
  let lines_per_second : ℚ :=
    (total_scrollable_lines total_lines : ℚ) / (DURATION_SEC : ℚ)
  py_int (t * lines_per_second) % total_scrollable_lines total_lines

/-- Modelled from the spec (§4.5 Overlay Text Provider), for comparison with
the code-derived `start_line`: scroll offset =
`floor(t * (scrollable_line_count / total_duration)) modulo scrollable_line_count`. -/
def scroll_offset_spec (total_lines : ℕ) (t : ℚ) : ℤ :=
  ⌊t * ((total_scrollable_lines total_lines : ℚ) / (DURATION_SEC : ℚ))⌋ %
    total_scrollable_lines total_lines

/-! Sequencer (`main_mp4`). -/

/-- Source `total_frames = DURATION_SEC * FPS`. -/
def total_frames : ℕ := DURATION_SEC * FPS

/-- Timestamp of frame `i`: `t = i / FPS`. -/
def frame_time (i : ℕ) : ℚ := (i : ℚ) / (FPS : ℚ)

/-- The per-digit BCD bit columns computed while rendering the frame at time
`t`; `none` would mean the assert in `bcd_bits` fired. -/
def render_frame_digits (t : ℚ) : Option (List (List ℕ)) :=
  (rendered_digits t).mapM fun d => bcd_bits_checked (d : ℤ)

/-- The ordered stream of (index, timestamp, displayed digits) that
`main_mp4` passes to the video sink, one entry per loop iteration. -/
def sink_stream : List (ℕ × ℚ × List ℕ) :=
  (List.range total_frames).map fun i => (i, frame_time i, rendered_digits (frame_time i))

/-- Source `main_mp4` with duration and frame rate lifted to parameters: the run
renders `range(dur * fps)` frames in order, failing exactly when a frame
rendering trips the digit assert.  There is no validation of `dur` or `fps`;
`range` of a non-positive count is empty. -/
def main_run (dur fps : ℤ) : Except String (List (List (List ℕ))) :=
  (List.range (dur * fps).toNat).mapM fun i =>
    match render_frame_digits ((i : ℚ) / (fps : ℚ)) with
    | some f => Except.ok f
    | none => Except.error "AssertionError"

end Clock

namespace Clock

/-- C3: for every digit `d ∈ [0,9]`, `bcd_bits` returns the 4-element vector
with `bit[i] = (d >> (3-i)) & 1` (MSB first), and it round-trips:
`8*b0 + 4*b1 + 2*b2 + 1*b3 = d`. -/
theorem bcd_bits_roundtrip (d : ℕ) (hd : d ≤ 9) :
    bcd_bits d = [0, 1, 2, 3].map (fun i => (d >>> (3 - i)) &&& 1) ∧
    8 * (bcd_bits d).getD 0 0 + 4 * (bcd_bits d).getD 1 0 +
      2 * (bcd_bits d).getD 2 0 + 1 * (bcd_bits d).getD 3 0 = d := by
  revert hd
  revert d
  decide

/-- C3 witness: the round-trip theorem instantiated at the digit 6. -/
theorem bcd_bits_roundtrip_witness :
    bcd_bits 6 = [0, 1, 2, 3].map (fun i => (6 >>> (3 - i)) &&& 1) ∧
    8 * (bcd_bits 6).getD 0 0 + 4 * (bcd_bits 6).getD 1 0 +
      2 * (bcd_bits 6).getD 2 0 + 1 * (bcd_bits 6).getD 3 0 = 6 :=
  bcd_bits_roundtrip 6 (by decide)

/-- Helper: the digits shown before the 22-second threshold. -/
theorem rendered_digits_of_lt (t : ℚ) (h2 : t < 22) :
    rendered_digits t = [0, 4, 4, 3] := by
  rw [rendered_digits, get_time_for_elapsed, if_pos h2]; rfl

/-- Helper: the digits shown from the 22-second threshold on. -/
theorem rendered_digits_of_ge (t : ℚ) (h1 : 22 ≤ t) :
    rendered_digits t = [0, 4, 4, 4] := by
  rw [rendered_digits, get_time_for_elapsed, if_neg (not_lt.mpr h1)]; rfl

/-- C2: the displayed digits are a step function of elapsed time with the
single threshold 22.0 s: `[0,4,4,3]` on `[0, 22)` and `[0,4,4,4]` on
`[22, 44]`, the digits being `[h/10, h%10, m/10, m%10]`. -/
theorem time_to_digit_step (t : ℚ) :
    (0 ≤ t → t < 22 → rendered_digits t = [0, 4, 4, 3]) ∧
    (22 ≤ t → t ≤ 44 → rendered_digits t = [0, 4, 4, 4]) ∧
    (∀ h m : ℕ, digits_for_time h m = [h / 10, h % 10, m / 10, m % 10]) :=
  ⟨fun _ h2 => rendered_digits_of_lt t h2,
   fun h1 _ => rendered_digits_of_ge t h1,
   fun _ _ => rfl⟩

/-- C2 witness: the step theorem instantiated just below and at the threshold. -/
theorem time_to_digit_step_witness :
    rendered_digits 10 = [0, 4, 4, 3] ∧ rendered_digits 22 = [0, 4, 4, 4] :=
  ⟨(time_to_digit_step 10).1 (by decide) (by decide),
   (time_to_digit_step 22).2.1 (by decide) (by decide)⟩

/-- C5: the grid-position table is 4×4 with integer coordinates, adjacent
column x-coordinates differ by `COLUMN_SPACING = 280`, adjacent row
y-coordinates differ by `ROW_SPACING = 160`, and the table is symmetric
around `GRID_CENTER`. -/
theorem grid_layout (c r : Fin 4) (c3 r3 : Fin 3) :
    compute_grid_positions.map List.length = [4, 4, 4, 4] ∧
    (grid_pos ((c3 : ℕ) + 1) (r : ℕ)).1 - (grid_pos (c3 : ℕ) (r : ℕ)).1 = COLUMN_SPACING ∧
    (grid_pos (c : ℕ) ((r3 : ℕ) + 1)).2 - (grid_pos (c : ℕ) (r3 : ℕ)).2 = ROW_SPACING ∧
    (grid_pos (c : ℕ) (r : ℕ)).1 + (grid_pos (3 - (c : ℕ)) (r : ℕ)).1 = 2 * GRID_CENTER.1 ∧
    (grid_pos (c : ℕ) (r : ℕ)).2 + (grid_pos (c : ℕ) (3 - (r : ℕ))).2 = 2 * GRID_CENTER.2 ∧
    COLUMN_SPACING = 280 ∧ ROW_SPACING = 160 := by
  revert c r c3 r3
  decide

/-- Helper: the sink stream entry at any in-range index. -/
theorem sink_stream_getElem (i : ℕ) (h : i < 1320) :
    sink_stream[i]? = some (i, frame_time i, rendered_digits (frame_time i)) := by
  have ht : i < total_frames := h
  simp [sink_stream, List.getElem?_map, List.getElem?_range, ht]

/-- C1: the sequencer produces exactly `total_frames = 44 * 30 = 1320`
frames and passes them to the sink in strictly increasing index order
`0..1319`, each rendered at `t = i / 30`; the frame at index 659 shows
digits `[0,4,4,3]` and the frame at index 660 (t = 22.0) shows `[0,4,4,4]`. -/
theorem sequencer_end_to_end :
    total_frames = 1320 ∧
    sink_stream.map (fun f => f.1) = List.range 1320 ∧
    (∀ i : Fin 1320, sink_stream[(i : ℕ)]? =
      some ((i : ℕ), (i : ℚ) / 30, rendered_digits ((i : ℚ) / 30))) ∧
    sink_stream[659]? = some (659, 659 / 30, [0, 4, 4, 3]) ∧
    sink_stream[660]? = some (660, 22, [0, 4, 4, 4]) := by
  have hfps : ((FPS : ℕ) : ℚ) = 30 := by norm_num [FPS]
  have htf : total_frames = 1320 := by norm_num [total_frames, DURATION_SEC, FPS]
  refine ⟨htf, ?_, fun i => ?_, ?_, ?_⟩
  · rw [sink_stream, List.map_map, htf]
    exact List.map_id' _
  · rw [sink_stream_getElem (i : ℕ) i.isLt, frame_time, hfps]
  · rw [sink_stream_getElem 659 (by norm_num)]
    have h1 : frame_time 659 = 659 / 30 := by rw [frame_time, hfps]; norm_num
    rw [h1, rendered_digits_of_lt _ (by norm_num)]
  · rw [sink_stream_getElem 660 (by norm_num)]
    have h1 : frame_time 660 = 22 := by rw [frame_time, hfps]; norm_num
    rw [h1, rendered_digits_of_ge _ (by norm_num)]

/-- C4 counterexample: a run configured with a negative duration is not
fatal — it renders zero frames and completes successfully, contradicting
the claim that a negative duration/rate configuration fails. -/
theorem negative_duration_not_fatal : main_run (-44) 30 = Except.ok [] := by
  rfl

/-- C4 (amended): `bcd_bits` fails exactly outside `[0,9]` and succeeds on
`[0,9]`; a configuration with negative duration or rate is not validated:
the sequencer renders zero frames and completes without error. -/
theorem bcd_fail_fast (d : ℤ) :
    ((d < 0 ∨ 9 < d) → bcd_bits_checked d = none) ∧
    (0 ≤ d → d ≤ 9 → (bcd_bits_checked d).isSome = true) ∧
    (∀ dur fps : ℤ, dur * fps ≤ 0 → main_run dur fps = Except.ok []) := by
  refine ⟨fun h => ?_, fun h1 h2 => ?_, fun dur fps h => ?_⟩
  · rw [bcd_bits_checked, if_neg (by omega)]
  · rw [bcd_bits_checked, if_pos ⟨h1, h2⟩, Option.isSome_some]
  · rw [main_run, Int.toNat_of_nonpos h]
    rfl

/-- C4 witness: the amended theorem instantiated at `d = 12`, `d = 7` and a
run with duration `-44` at 30 fps. -/
theorem bcd_fail_fast_witness :
    bcd_bits_checked 12 = none ∧ (bcd_bits_checked 7).isSome = true ∧
    main_run (-44 * 30) 1 = Except.ok [] :=
  ⟨(bcd_fail_fast 12).1 (by decide), (bcd_fail_fast 7).2.1 (by decide) (by decide),
   (bcd_fail_fast 0).2.2 (-44 * 30) 1 (by decide)⟩

/-- Helper: for a nonzero modulus, `fmod a b = b * fract (a / b)`. -/
theorem fmod_eq_mul_fract (a b : ℚ) (hb : b ≠ 0) :
    fmod a b = b * Int.fract (a / b) := by
  rw [fmod, Int.fract, mul_sub, mul_comm b (a / b), div_mul_cancel₀ a hb]

/-- Helper: for a positive modulus the Python float `%` lands in `[0, b)`. -/
theorem fmod_bounds (a b : ℚ) (hb : 0 < b) : 0 ≤ fmod a b ∧ fmod a b < b := by
  rw [fmod_eq_mul_fract a b hb.ne']
  constructor
  · exact mul_nonneg hb.le (Int.fract_nonneg _)
  · calc b * Int.fract (a / b) < b * 1 :=
        mul_lt_mul_of_pos_left (Int.fract_lt_one _) hb
    _ = b := mul_one b

/-- Helper: `fmod` is idempotent in its first argument. -/
theorem fmod_idem (a b : ℚ) (hb : 0 < b) : fmod (fmod a b) b = fmod a b := by
  obtain ⟨h0, h1⟩ := fmod_bounds a b hb
  have hfl : ⌊fmod a b / b⌋ = 0 := by
    rw [Int.floor_eq_zero_iff]
    exact ⟨div_nonneg h0 hb.le, (div_lt_one hb).mpr h1⟩
  rw [fmod, hfl]
  push_cast
  ring

/-- C6: blink visibility is a pure function of `t` modulo the period
`P = 1 / freq`: visible exactly when `t mod P < P / 2` (the first half of
the period, `t mod P` lying in `[0, P)`), invisible on the second half, and
identically false when the blink flag is disabled. -/
theorem colon_blink (freq t s : ℚ) (hf : 0 < freq) (_ht : 0 ≤ t) :
    (colon_visible true freq t = true ↔ fmod t (1 / freq) < (1 / freq) / 2) ∧
    ((1 / freq) / 2 ≤ fmod t (1 / freq) → colon_visible true freq t = false) ∧
    (0 ≤ fmod t (1 / freq) ∧ fmod t (1 / freq) < 1 / freq) ∧
    colon_visible true freq t = colon_visible true freq (fmod t (1 / freq)) ∧
    colon_visible false freq s = false := by
  have hP : 0 < 1 / freq := by positivity
  refine ⟨?_, fun h => ?_, fmod_bounds t _ hP, ?_, rfl⟩
  · simp [colon_visible]
  · have h2 : ¬ fmod t (1 / freq) < 1 / freq / 2 := not_lt.mpr h
    simp only [one_div] at h2
    simp [colon_visible, h2]
  · have hi := fmod_idem t (1 / freq) hP
    simp only [one_div] at hi
    simp [colon_visible, hi]

/-- C6 witness: the blink theorem instantiated at `freq = 1`, `t = 0`,
`s = 5`. -/
theorem colon_blink_witness :
    (colon_visible true 1 0 = true ↔ fmod 0 (1 / 1) < (1 / 1) / 2) ∧
    ((1 / 1) / 2 ≤ fmod 0 (1 / 1) → colon_visible true 1 0 = false) ∧
    (0 ≤ fmod 0 (1 / 1) ∧ fmod 0 (1 / 1) < 1 / 1) ∧
    colon_visible true 1 0 = colon_visible true 1 (fmod 0 (1 / 1)) ∧
    colon_visible false 1 5 = false :=
  colon_blink 1 0 5 (by decide) (by decide)

/-- C7: when the pulse effect is enabled the pulse factor is
`1 + depth * sin(2 * pi * freq * t)`, equal to exactly 1 at `t = 0` for any
frequency and depth; when disabled it is 1 for every `t`. -/
theorem pulse_factor_spec (freq depth t : ℝ) :
    pulse_factor true freq depth 0 = 1 ∧
    pulse_factor false freq depth t = 1 ∧
    pulse_factor true freq depth t = 1 + depth * Real.sin (2 * Real.pi * freq * t) ∧
    pulse_factor PULSE_ENABLED PULSE_FREQ PULSE_DEPTH 0 = 1 := by
  refine ⟨by norm_num [pulse_factor], by norm_num [pulse_factor],
    by norm_num [pulse_factor], by norm_num [pulse_factor, PULSE_ENABLED]⟩

/-- Helper: `int(max(0, min(255, x)))` lands in `[0, 255]` for every `x`. -/
theorem py_int_clamp_bounds (x : ℚ) :
    0 ≤ py_int (max 0 (min 255 x)) ∧ py_int (max 0 (min 255 x)) ≤ 255 := by
  have h0 : (0 : ℚ) ≤ max 0 (min 255 x) := le_max_left _ _
  have h255 : max 0 (min 255 x) ≤ 255 := max_le (by norm_num) (min_le_left _ _)
  rw [py_int, if_pos h0]
  refine ⟨Int.floor_nonneg.mpr h0, ?_⟩
  calc ⌊max 0 (min 255 x)⌋ ≤ ⌊(255 : ℚ)⌋ := Int.floor_le_floor h255
  _ = 255 := by norm_num

/-- Helper: clamping to `[0, 2]` is idempotent. -/
theorem clamp2_idem (k : ℚ) :
    max 0 (min 2 (max 0 (min 2 k))) = max 0 (min 2 k) := by
  have h2 : max 0 (min 2 k) ≤ 2 := max_le (by norm_num) (min_le_left _ _)
  rw [min_eq_right h2, max_eq_right (le_max_left _ _)]

/-- C8: brightness modulation first clamps the multiplier to `[0, 2]`, every
resulting channel lies in `[0, 255]` (for any base color whatsoever, hence in
particular for channels in `[0, 255]`), and modulating the on-color
`(40, 200, 255)` by `2.0` yields `(80, 255, 255)`, no channel above 255. -/
theorem modulate_brightness_clamps (color : ℤ × ℤ × ℤ) (k : ℚ) :
    modulate_brightness color k = modulate_brightness color (max 0 (min 2 k)) ∧
    (0 ≤ (modulate_brightness color k).1 ∧ (modulate_brightness color k).1 ≤ 255) ∧
    (0 ≤ (modulate_brightness color k).2.1 ∧ (modulate_brightness color k).2.1 ≤ 255) ∧
    (0 ≤ (modulate_brightness color k).2.2 ∧ (modulate_brightness color k).2.2 ≤ 255) ∧
    modulate_brightness LED_ON 2 = (80, 255, 255) := by
  refine ⟨?_, py_int_clamp_bounds _, py_int_clamp_bounds _, py_int_clamp_bounds _,
    by norm_num [modulate_brightness, LED_ON, py_int]⟩
  rw [modulate_brightness, modulate_brightness, clamp2_idem]

/-- C9: the overlay scroll offset computed by `draw_code_overlay` equals the
specified `floor(t * (scrollable_line_count / total_duration)) modulo
scrollable_line_count`, with `scrollable_line_count = max(1, total_lines -
window_size + 1)` and a window of 25 visible lines. -/
theorem scroll_offset_matches_spec (total_lines : ℕ) (t : ℚ) (ht : 0 ≤ t) :
    start_line total_lines t = scroll_offset_spec total_lines t ∧
    lines_per_screen = 25 ∧
    total_scrollable_lines total_lines =
      max 1 ((total_lines : ℤ) - 25 + 1) := by
  refine ⟨?_, rfl, rfl⟩
  have hs : (0 : ℚ) ≤ (total_scrollable_lines total_lines : ℚ) := by
    have h1 : (1 : ℤ) ≤ total_scrollable_lines total_lines := le_max_left _ _
    have : (0 : ℤ) ≤ total_scrollable_lines total_lines := by omega
    exact_mod_cast this
  have hq : 0 ≤ t *
      ((total_scrollable_lines total_lines : ℚ) / (DURATION_SEC : ℚ)) := by
    apply mul_nonneg ht
    apply div_nonneg hs
    norm_num [DURATION_SEC]
  simp only [start_line, scroll_offset_spec]
  rw [py_int, if_pos hq]

/-- C9 witness: the scroll-offset theorem instantiated at 283 source lines
and `t = 3`. -/
theorem scroll_offset_matches_spec_witness :
    start_line 283 3 = scroll_offset_spec 283 3 ∧
    lines_per_screen = 25 ∧
    total_scrollable_lines 283 = max 1 (((283 : ℕ) : ℤ) - 25 + 1) :=
  scroll_offset_matches_spec 283 3 (by decide)

/-- C10: at every timestamp the four digits produced by the time-to-digit
mapper are at most 9, so the `assert` in `bcd_bits` never fires while
rendering: the per-frame BCD computation always succeeds, returning the four
bit columns. -/
theorem render_digit_assert_unreachable (t : ℚ) :
    (rendered_digits t).all (fun d => decide (d ≤ 9)) = true ∧
    render_frame_digits t = some ((rendered_digits t).map bcd_bits) := by
  rcases lt_or_le t 22 with h | h
  · rw [render_frame_digits, rendered_digits_of_lt t h]
    exact ⟨by decide, by decide⟩
  · rw [render_frame_digits, rendered_digits_of_ge t h]
    exact ⟨by decide, by decide⟩

end Clock
